import Mathlib

/-!
Shallow embedding of the LightRAG Streamlit chat application (src/app.py)
and proofs about its session lifecycle.

The application keeps a per-session state (engine handle, chat transcript,
documents-loaded flag) and exposes four user actions: sidebar credential
entry (which may initialize the engine), the Load Documents button, the
Clear Chat button, and the chat input. The three adapter functions
(`initialize_lightrag`, `load_document`, `query_rag`) wrap one external
library call each inside a try/except; the outcome of that external call is
modelled here as an explicit `Except` argument (the oracle for what the
library would have done), and everything else is translated directly from
the source.
-/

namespace LightRAG

/-- Chat message role: the `"role"` field of a transcript entry. -/
inductive Role where
  | user
  | assistant
deriving DecidableEq, Repr

/-- One transcript entry: the dict `{"role": ..., "content": ..., "timestamp": ...}`
appended by the chat input handler (src/app.py lines 215-219 and 239-243). -/
structure Message where
  role : Role
  content : String
  timestamp : String
deriving DecidableEq, Repr

/-- The per-session state: `st.session_state.rag_instance` (opaque engine
handle, modelled as an optional numeric id), `st.session_state.messages`
(the transcript) and `st.session_state.documents_loaded`
(src/app.py lines 14-20). -/
structure SessionState where
  rag_instance : Option Nat
  messages : List Message
  documents_loaded : Bool
deriving DecidableEq, Repr

/-- The session state created at session start (src/app.py lines 14-20):
no engine handle, empty transcript, flag false. -/
def initialState : SessionState :=
  { rag_instance := none, messages := [], documents_loaded := false }

/-- `initialize_lightrag(api_key)` (src/app.py lines 22-59): constructs the
LightRAG engine and returns it, or catches any exception, shows an error
and returns `None`. The external construction (imports, `LightRAG(...)`)
is the `outcome` oracle: `.ok rag` when it returns a handle, `.error e`
when it raises. -/
def initialize_lightrag (api_key : String) (outcome : Except String Nat) :
    Option Nat :=
  match outcome with
  | Except.ok rag => some rag
  | Except.error _ => none

/-- Index of the last occurrence of `'.'` in a list of characters
(the `name.rfind('.')` of CPython's `PurePath.suffix`), `none` when absent. -/
def lastDotIdx : List Char → Option Nat
  | [] => none
  | c :: cs =>
    match lastDotIdx cs with
    | some i => some (i + 1)
    | none => if c = '.' then some 0 else none

/-- Final path component of a filename (Python's `Path(filename).name`
for slash-separated paths). -/
def pathName (filename : String) : String :=
  (filename.splitOn "/").getLastD filename

/-- `Path(filename).suffix` (src/app.py line 64): the extension of the final
component including the dot, and `""` when the last dot is leading, trailing
or absent — CPython computes `i = name.rfind('.')` and returns `name[i:]`
exactly when `0 < i < len(name) - 1`. -/
def pathSuffix (filename : String) : String :=
  let name := (pathName filename).data
  match lastDotIdx name with
  | some i =>
    if 0 < i ∧ i < name.length - 1 then String.mk (name.drop i) else ""
  | none => ""

/-- A temporary file created by `tempfile.NamedTemporaryFile(delete=False,
suffix=...)`: a unique id (the generated unique name), the suffix it was
created with, and the bytes written to it. -/
structure TmpFile where
  id : Nat
  suffix : String
  content : List Nat
deriving DecidableEq, Repr

/-- The temporary-file area of the filesystem: the files currently present
and a counter from which `NamedTemporaryFile` draws its next unique name. -/
structure FS where
  files : List TmpFile
  counter : Nat
deriving DecidableEq, Repr

/-- Well-formedness of the filesystem model: every existing temp file was
allocated from an earlier counter value, so the next generated name is
fresh (the uniqueness `tempfile` guarantees). -/
def FS.wf (fs : FS) : Prop := ∀ f ∈ fs.files, f.id < fs.counter

/-- `load_document(rag, file_content, filename)` (src/app.py lines 61-77):
writes the bytes to a fresh temporary file whose suffix is
`Path(filename).suffix`, runs `rag.ainsert` on a fresh event loop
(its outcome is the `insertOutcome` oracle), then `os.unlink`s the
temporary file and returns `True`; any exception is caught, an error is
shown and `False` is returned — on that path the `os.unlink` line is never
reached, so the temporary file stays on disk. -/
def load_document (rag : Nat) (fs : FS) (insertOutcome : Except String Unit)
    (file_content : List Nat) (filename : String) : Bool × FS :=
  let tmp : TmpFile :=
    { id := fs.counter, suffix := pathSuffix filename, content := file_content }
  let fs1 : FS := { files := tmp :: fs.files, counter := fs.counter + 1 }
  match insertOutcome with
  | Except.ok _ =>
    (true, { files := fs1.files.filter (fun f => f.id != tmp.id),
             counter := fs1.counter })
  | Except.error _ => (false, fs1)

/-- `query_rag(rag, query, mode)` (src/app.py lines 79-93): runs
`rag.aquery` on a fresh event loop and returns its answer string, or
catches any exception, shows an error and returns `None`. The external
call is the `outcome` oracle. -/
def query_rag (rag : Option Nat) (query : String) (mode : String)
    (outcome : Except String String) : Option String :=
  match outcome with
  | Except.ok result => some result
  | Except.error _ => none

/-- An uploaded file as seen by the Load Documents handler:
`file.name` and the bytes `file.read()` returns. -/
structure UploadedFile where
  name : String
  content : List Nat
deriving DecidableEq, Repr

/-- Whether an ingestion outcome is a thrown failure. -/
def isFailure : Except String Unit → Bool
  | Except.ok _ => false
  | Except.error _ => true

/-- The loop body of the Load Documents handler (src/app.py lines 133-143):
iterates over every uploaded file in order, calls `load_document` on each,
and counts successes. Returns the final filesystem, the success count and
the number of files attempted. Each list element pairs the file with the
oracle outcome of its `ainsert` call. -/
def processFiles (rag : Nat) (fs : FS) :
    List (UploadedFile × Except String Unit) → FS × Nat × Nat
  | [] => (fs, 0, 0)
  | (file, outcome) :: rest =>
    let r := load_document rag fs outcome file.content file.name
    let rec_ := processFiles rag r.2 rest
    (rec_.1, (if r.1 then 1 else 0) + rec_.2.1, 1 + rec_.2.2)

/-- The Load Documents button handler (src/app.py lines 128-146): processes
every uploaded file, then sets `st.session_state.documents_loaded = True`
unconditionally and reports the success count. -/
def loadDocumentsHandler (rag : Nat) (st : SessionState) (fs : FS)
    (batch : List (UploadedFile × Except String Unit)) :
    SessionState × FS × Nat :=
  let r := processFiles rag fs batch
  ({ st with documents_loaded := true }, r.1, r.2.1)

/-- The sidebar initialization guard (src/app.py lines 111-115), executed on
every script re-evaluation:
`if api_key and st.session_state.rag_instance is None:
   st.session_state.rag_instance = initialize_lightrag(api_key)`.
Returns the new state and whether `initialize_lightrag` was invoked. -/
def sidebarInit (st : SessionState) (api_key : String)
    (outcome : Except String Nat) : SessionState × Bool :=
  if api_key ≠ "" ∧ st.rag_instance = none then
    ({ st with rag_instance := initialize_lightrag api_key outcome }, true)
  else
    (st, false)

/-- A sequence of script re-evaluations of the sidebar guard within one
session, each with the credential present at that point and the oracle for
what engine construction would do; returns the final state and how many
times `initialize_lightrag` was invoked. -/
def runSession (st : SessionState) :
    List (String × Except String Nat) → SessionState × Nat
  | [] => (st, 0)
  | (api_key, outcome) :: rest =>
    let r := sidebarInit st api_key outcome
    let rr := runSession r.1 rest
    (rr.1, (if r.2 then 1 else 0) + rr.2)

/-- The Clear Chat button handler (src/app.py lines 170-172):
`st.session_state.messages = []` followed by `st.rerun()`. -/
def clearChatHandler (st : SessionState) : SessionState :=
  { st with messages := [] }

/-- The chat input handler (src/app.py lines 211-245): appends the user
message (with its timestamp) to the transcript, calls `query_rag`, and —
only when the response is truthy (`if response:`, i.e. not `None` and not
the empty string) — appends the assistant message with its own timestamp;
otherwise it shows an error and appends nothing further. -/
def chatInputHandler (st : SessionState) (prompt : String) (userTs : String)
    (mode : String) (queryOutcome : Except String String) (asstTs : String) :
    SessionState :=
  let st1 :=
    { st with messages :=
        st.messages ++ [{ role := Role.user, content := prompt, timestamp := userTs }] }
  let response := query_rag st.rag_instance prompt mode queryOutcome
  match response with
  | some r =>
    if r != "" then
      { st1 with messages :=
          st1.messages ++ [{ role := Role.assistant, content := r, timestamp := asstTs }] }
    else
      st1
  | none => st1

/-- Which of the four main-area branches is rendered
(src/app.py lines 177-245). -/
inductive MainView where
  | getStarted
  | initFailed
  | uploadFirst
  | chat
deriving DecidableEq, Repr

/-- The main-area state dispatch (src/app.py lines 177-202):
`if not api_key: ... elif not st.session_state.rag_instance: ...
elif not st.session_state.documents_loaded: ... else: <chat>`. -/
def mainView (api_key : String) (st : SessionState) : MainView :=
  if api_key = "" then MainView.getStarted
  else if st.rag_instance = none then MainView.initFailed
  else if st.documents_loaded = false then MainView.uploadFirst
  else MainView.chat

/-- A discrete user action during a session, with the oracles for the
external calls it triggers. -/
inductive Action where
  | sidebar (api_key : String) (initOutcome : Except String Nat)
  | loadDocs (batch : List (UploadedFile × Except String Unit))
  | clearChat
  | chatInput (api_key : String) (prompt : String) (userTs : String)
      (mode : String) (queryOutcome : Except String String) (asstTs : String)

/-- One user action applied to the session state and temp-file area.
The Load Documents button only exists when files are uploaded and the
engine handle is set (src/app.py line 128); the chat input only exists in
the chat branch of the main-area dispatch (src/app.py lines 202-211). -/
def step (s : SessionState × FS) (a : Action) : SessionState × FS :=
  match a with
  | Action.sidebar api_key outcome =>
    ((sidebarInit s.1 api_key outcome).1, s.2)
  | Action.loadDocs batch =>
    match s.1.rag_instance with
    | some rag =>
      if batch.isEmpty then s
      else
        let r := loadDocumentsHandler rag s.1 s.2 batch
        (r.1, r.2.1)
    | none => s
  | Action.clearChat => (clearChatHandler s.1, s.2)
  | Action.chatInput api_key prompt userTs mode outcome asstTs =>
    if mainView api_key s.1 = MainView.chat then
      (chatInputHandler s.1 prompt userTs mode outcome asstTs, s.2)
    else s

/-! Concrete sample values used by witnesses and counterexamples. -/

/-- A session state in the chat branch with an empty transcript. -/
def st0 : SessionState :=
  { rag_instance := some 0, messages := [], documents_loaded := true }

/-- A session state in the chat branch with one existing message. -/
def st1 : SessionState :=
  { rag_instance := some 0,
    messages := [{ role := Role.user, content := "hi", timestamp := "09:00:00" }],
    documents_loaded := true }

/-- An empty temp-file area. -/
def fs0 : FS := { files := [], counter := 0 }

/-- A one-file batch whose ingestion fails. -/
def batchFail0 : List (UploadedFile × Except String Unit) :=
  [({ name := "a.txt", content := [1, 2] }, Except.error "boom")]

/-- Two script re-evaluations, credential present, engine construction
failing both times. -/
def failTwice : List (String × Except String Nat) :=
  [("key", Except.error "bad"), ("key", Except.error "bad")]

/-! Helper lemmas shared between claims. -/

/-- A successful ingestion outcome is not a failure. -/
theorem isFailure_ok (u : Unit) : isFailure (Except.ok u) = false := rfl

/-- A thrown ingestion outcome is a failure. -/
theorem isFailure_error (e : String) : isFailure (Except.error e) = true := rfl

/-- The chat input handler only ever appends to the transcript. -/
theorem chatInputHandler_append (st : SessionState)
    (prompt userTs mode : String) (outcome : Except String String)
    (asstTs : String) :
    ∃ t, (chatInputHandler st prompt userTs mode outcome asstTs).messages =
      st.messages ++ t := by
  cases outcome with
  | error e =>
    exact ⟨[{ role := Role.user, content := prompt, timestamp := userTs }], rfl⟩
  | ok r =>
    by_cases hr : r = ""
    · subst hr
      exact ⟨[{ role := Role.user, content := prompt, timestamp := userTs }],
        by simp [chatInputHandler, query_rag]⟩
    · have hb : (r != "") = true := bne_iff_ne.mpr hr
      exact ⟨[{ role := Role.user, content := prompt, timestamp := userTs },
              { role := Role.assistant, content := r, timestamp := asstTs }],
        by simp [chatInputHandler, query_rag, hb]⟩

/-- The chat input handler leaves the engine handle untouched. -/
theorem chatInputHandler_rag_instance (st : SessionState)
    (prompt userTs mode : String) (outcome : Except String String)
    (asstTs : String) :
    (chatInputHandler st prompt userTs mode outcome asstTs).rag_instance =
      st.rag_instance := by
  cases outcome with
  | error e => rfl
  | ok r =>
    cases hb : (r != "") <;> simp [chatInputHandler, query_rag, hb]

/-- The sidebar guard leaves the transcript untouched. -/
theorem sidebarInit_messages (st : SessionState) (api_key : String)
    (outcome : Except String Nat) :
    (sidebarInit st api_key outcome).1.messages = st.messages := by
  unfold sidebarInit
  split <;> rfl

/-- Once the engine handle is set, the sidebar guard changes nothing. -/
theorem sidebarInit_of_some (st : SessionState) (api_key : String)
    (outcome : Except String Nat) (h : Nat)
    (hst : st.rag_instance = some h) :
    sidebarInit st api_key outcome = (st, false) := by
  unfold sidebarInit
  rw [if_neg]
  rintro ⟨-, h2⟩
  rw [hst] at h2
  cases h2

/-! Claim C1. -/

/-- C1 counterexample: the claim as stated is false. On a failed query
(`query_rag` returns `None`), the transcript after the call is NOT
identical to the transcript before the question was submitted: the handler
appends the user message (src/app.py lines 215-219) before calling
`query_rag`, so the transcript grows by exactly one entry. -/
theorem c1_counterexample :
    (chatInputHandler st0 "q" "10:00:00" "hybrid" (Except.error "boom")
        "10:00:01").messages ≠ st0.messages ∧
    (chatInputHandler st0 "q" "10:00:00" "hybrid" (Except.error "boom")
        "10:00:01").messages.length = st0.messages.length + 1 := by
  constructor
  · decide
  · rfl

/-- C1 (amended): for every query that fails (the Query Adapter
`query_rag` returns `None`), no assistant message is appended; the
transcript after the failed call equals the transcript before the
question, followed by exactly the one user message (all prior entries
unchanged). -/
theorem c1_failed_query_transcript (st : SessionState)
    (prompt userTs mode asstTs : String) (outcome : Except String String)
    (hfail : query_rag st.rag_instance prompt mode outcome = none) :
    (chatInputHandler st prompt userTs mode outcome asstTs).messages =
      st.messages ++
        [{ role := Role.user, content := prompt, timestamp := userTs }] := by
  cases outcome with
  | ok r => simp [query_rag] at hfail
  | error e => rfl

/-- C1 witness: the amended theorem at a concrete failing query. -/
theorem c1_witness :
    (chatInputHandler st0 "q" "10:05:00" "hybrid" (Except.error "down")
        "10:05:01").messages =
      st0.messages ++
        [{ role := Role.user, content := "q", timestamp := "10:05:00" }] :=
  c1_failed_query_transcript st0 "q" "10:05:00" "hybrid" "10:05:01"
    (Except.error "down") rfl

/-! Claim C2. -/

/-- C2: for every batch of N uploaded files of which k fail ingestion, the
Load Documents loop attempts all N files (the attempted counter equals N:
no short-circuit on first failure) and the reported success count equals
N − k. -/
theorem c2_batch_success_count (rag : Nat) (st : SessionState) (fs : FS)
    (batch : List (UploadedFile × Except String Unit)) :
    (processFiles rag fs batch).2.2 = batch.length ∧
    (loadDocumentsHandler rag st fs batch).2.2 =
      batch.length - (batch.filter (fun p => isFailure p.2)).length := by
  suffices h : ∀ fs2 : FS,
      (processFiles rag fs2 batch).2.2 = batch.length ∧
      (processFiles rag fs2 batch).2.1 =
        batch.length - (batch.filter (fun p => isFailure p.2)).length by
    exact ⟨(h fs).1, (h fs).2⟩
  induction batch with
  | nil => intro fs2; simp [processFiles]
  | cons hd tl ih =>
    intro fs2
    obtain ⟨file, outcome⟩ := hd
    have hlen : (tl.filter (fun p => isFailure p.2)).length ≤ tl.length :=
      List.length_filter_le _ _
    cases outcome with
    | ok u =>
      obtain ⟨ih1, ih2⟩ :=
        ih { files := fs2.files.filter (fun f => f.id != fs2.counter),
             counter := fs2.counter + 1 }
      simp [processFiles, load_document, isFailure_ok, ih1, ih2]
      omega
    | error e =>
      obtain ⟨ih1, ih2⟩ :=
        ih { files := { id := fs2.counter, suffix := pathSuffix file.name,
                        content := file.content } :: fs2.files,
             counter := fs2.counter + 1 }
      simp [processFiles, load_document, isFailure_error, ih1, ih2]
      omega

/-! Claim C3. -/

/-- C3 counterexample: the claim as stated is false. When the Query
Adapter returns the non-null answer `""`, the handler's truthiness test
`if response:` treats it as a failure: only the user message is appended
(one message, not two). -/
theorem c3_counterexample :
    query_rag st0.rag_instance "q" "hybrid" (Except.ok "") = some "" ∧
    (chatInputHandler st0 "q" "10:00:00" "hybrid" (Except.ok "")
        "10:00:01").messages.length = st0.messages.length + 1 ∧
    (chatInputHandler st0 "q" "10:00:00" "hybrid" (Except.ok "")
        "10:00:01").messages.length ≠ st0.messages.length + 2 := by
  refine ⟨rfl, ?_, ?_⟩ <;> decide

/-- C3 (amended): for every query for which the Query Adapter returns a
non-null AND non-empty answer, exactly two messages are appended to the
transcript: one user message followed by one assistant message, in that
order, each carrying its timestamp. -/
theorem c3_successful_query_transcript (st : SessionState)
    (prompt userTs mode asstTs r : String) (hne : r ≠ "") :
    (chatInputHandler st prompt userTs mode (Except.ok r) asstTs).messages =
      st.messages ++
        [{ role := Role.user, content := prompt, timestamp := userTs },
         { role := Role.assistant, content := r, timestamp := asstTs }] := by
  have hb : (r != "") = true := bne_iff_ne.mpr hne
  simp [chatInputHandler, query_rag, hb]

/-- C3 witness: the amended theorem at a concrete successful query. -/
theorem c3_witness :
    (chatInputHandler st0 "q" "10:00:00" "hybrid" (Except.ok "the answer")
        "10:00:02").messages =
      st0.messages ++
        [{ role := Role.user, content := "q", timestamp := "10:00:00" },
         { role := Role.assistant, content := "the answer",
           timestamp := "10:00:02" }] :=
  c3_successful_query_transcript st0 "q" "10:00:00" "hybrid" "10:00:02"
    "the answer" (by decide)

/-! Claim C4. -/

/-- C4 counterexample: the claim as stated is false. When initialization
fails, the handle stays `None`, so the sidebar guard
(`if api_key and st.session_state.rag_instance is None`) fires again on
the next script re-evaluation: over two re-evaluations with a credential
present and a failing construction, `initialize_lightrag` is invoked
twice, not at most once. -/
theorem c4_counterexample :
    (runSession initialState failTwice).2 = 2 ∧
    ¬ (runSession initialState failTwice).2 ≤ 1 := by
  constructor <;> decide

/-- C4 (amended): once the engine handle is non-null (i.e. after a
successful initialization), `initialize_lightrag` is never invoked again,
however many times the script re-evaluates; but after a failure it IS
retried automatically: any re-evaluation with a credential present and a
null handle invokes it again. -/
theorem c4_initialization_guard :
    (∀ (st : SessionState) (h : Nat)
       (runs : List (String × Except String Nat)),
       st.rag_instance = some h → (runSession st runs).2 = 0) ∧
    (∀ (st : SessionState) (api_key : String) (outcome : Except String Nat),
       api_key ≠ "" → st.rag_instance = none →
       (sidebarInit st api_key outcome).2 = true) := by
  constructor
  · intro st h runs hst
    induction runs generalizing st with
    | nil => rfl
    | cons hd tl ih =>
      obtain ⟨k, o⟩ := hd
      show (let r := sidebarInit st k o
            let rr := runSession r.1 tl
            (rr.1, (if r.2 then 1 else 0) + rr.2)).2 = 0
      rw [sidebarInit_of_some st k o h hst]
      simpa using ih st hst
  · intro st api_key outcome hk hnone
    simp [sidebarInit, hk, hnone]

/-- C4 witness: the amended theorem at concrete inputs — a session whose
handle is already set sees zero further invocations, and a fresh state
with a credential does invoke the initializer. -/
theorem c4_witness :
    (runSession { rag_instance := some 5, messages := [],
                  documents_loaded := false } failTwice).2 = 0 ∧
    (sidebarInit initialState "key" (Except.error "bad")).2 = true :=
  ⟨c4_initialization_guard.1 _ 5 failTwice rfl,
   c4_initialization_guard.2 initialState "key" (Except.error "bad")
     (by decide) rfl⟩

/-! Claim C5. -/

/-- C5 counterexample: the claim as stated is false. The transcript is not
append-only across every user action: the Clear Chat action removes the
existing messages (src/app.py line 171). -/
theorem c5_counterexample :
    ¬ ∃ t, (step (st1, fs0) Action.clearChat).1.messages =
      st1.messages ++ t := by
  rintro ⟨t, ht⟩
  simp [step, clearChatHandler, st1] at ht

/-- C5 (amended): across every user action other than clear-chat the
transcript is append-only (the old transcript is an initial segment of the
new one); clear-chat resets it to the empty sequence; and the engine
handle, once non-null, is never replaced by any action. -/
theorem c5_session_invariant :
    (∀ (s : SessionState × FS) (a : Action), a ≠ Action.clearChat →
       ∃ t, (step s a).1.messages = s.1.messages ++ t) ∧
    (∀ s : SessionState × FS, (step s Action.clearChat).1.messages = []) ∧
    (∀ (s : SessionState × FS) (a : Action) (h : Nat),
       s.1.rag_instance = some h → (step s a).1.rag_instance = some h) := by
  refine ⟨?_, fun s => rfl, ?_⟩
  · intro s a ha
    cases a with
    | sidebar api_key outcome =>
      exact ⟨[], by simp [step, sidebarInit_messages]⟩
    | loadDocs batch =>
      refine ⟨[], ?_⟩
      simp only [step]
      cases hres : s.1.rag_instance with
      | none => simp
      | some rag =>
        cases hb : batch.isEmpty <;> simp [hb, loadDocumentsHandler]
    | clearChat => exact absurd rfl ha
    | chatInput api_key prompt userTs mode outcome asstTs =>
      simp only [step]
      by_cases hv : mainView api_key s.1 = MainView.chat
      · simpa [hv] using
          chatInputHandler_append s.1 prompt userTs mode outcome asstTs
      · exact ⟨[], by simp [hv]⟩
  · intro s a h hs
    cases a with
    | sidebar api_key outcome =>
      show (sidebarInit s.1 api_key outcome).1.rag_instance = some h
      rw [sidebarInit_of_some s.1 api_key outcome h hs]
      exact hs
    | loadDocs batch =>
      simp only [step]
      rw [hs]
      cases hb : batch.isEmpty <;> simp [hb, loadDocumentsHandler, hs]
    | clearChat => exact hs
    | chatInput api_key prompt userTs mode outcome asstTs =>
      simp only [step]
      by_cases hv : mainView api_key s.1 = MainView.chat
      · simpa [hv, chatInputHandler_rag_instance] using hs
      · simpa [hv] using hs

/-- C5 witness: the amended theorem at concrete inputs — clear-chat on a
state with one message empties the transcript, and a sidebar re-evaluation
on a state with the handle set leaves the handle as it was. -/
theorem c5_witness :
    (step (st1, fs0) Action.clearChat).1.messages = [] ∧
    (step (st1, fs0)
        (Action.sidebar "key" (Except.error "bad"))).1.rag_instance =
      some 0 :=
  ⟨c5_session_invariant.2.1 (st1, fs0),
   c5_session_invariant.2.2 (st1, fs0)
     (Action.sidebar "key" (Except.error "bad")) 0 rfl⟩

/-! Claim C6. -/

/-- C6: the Clear Chat handler sets the transcript to the empty sequence
in every session state, whatever the engine handle and the
documents-loaded flag are — both for the handler itself and for the
clear-chat action on any full session configuration. -/
theorem c6_clear_chat_empties :
    ∀ (st : SessionState) (s : SessionState × FS),
      (clearChatHandler st).messages = [] ∧
      (step s Action.clearChat).1.messages = [] := by
  intro st s
  exact ⟨rfl, rfl⟩

/-! Claim C7. -/

/-- C7: each of the three adapters catches a thrown failure of its external
call at its own boundary and returns a null/false result — `None` from
`initialize_lightrag`, `False` from `load_document`, `None` from
`query_rag` — for every input; being total functions into
`Option`/`Bool`, they propagate no exception to the presentation layer. -/
theorem c7_adapters_catch_failures :
    ∀ (api_key e : String) (rag : Nat) (fs : FS) (content : List Nat)
      (filename : String) (ragO : Option Nat) (question mode : String),
      initialize_lightrag api_key (Except.error e) = none ∧
      (load_document rag fs (Except.error e) content filename).1 = false ∧
      query_rag ragO question mode (Except.error e) = none := by
  intros
  exact ⟨rfl, rfl, rfl⟩

/-! Claim C8. -/

/-- C8: on a well-formed temp area, `load_document` allocates a transient
file whose name is fresh (distinct from every existing file) and whose
suffix is `Path(filename).suffix`; on the success path it deletes exactly
that file before returning `True` (the temp area is as before); on the
error path the delete step is not reached: the call returns `False` and
the transient file, holding the written bytes, remains. -/
theorem c8_load_document_tmpfile (rag : Nat) (fs : FS) (content : List Nat)
    (filename : String) (hwf : fs.wf) :
    (∀ f ∈ fs.files, f.id ≠ fs.counter) ∧
    ((load_document rag fs (Except.ok ()) content filename).1 = true ∧
     (load_document rag fs (Except.ok ()) content filename).2.files =
       fs.files) ∧
    (∀ e, (load_document rag fs (Except.error e) content filename).1 = false ∧
      (load_document rag fs (Except.error e) content filename).2.files =
        { id := fs.counter, suffix := pathSuffix filename,
          content := content } :: fs.files) := by
  refine ⟨fun f hf => Nat.ne_of_lt (hwf f hf), ⟨rfl, ?_⟩,
    fun e => ⟨rfl, rfl⟩⟩
  have hfilter : fs.files.filter (fun f => f.id != fs.counter) = fs.files :=
    List.filter_eq_self.mpr
      (fun f hf => bne_iff_ne.mpr (Nat.ne_of_lt (hwf f hf)))
  simp [load_document, hfilter]

/-- C8 witness: the theorem at a concrete failing ingestion on an empty
temp area — the call returns `False` and the `.txt` transient file with
the written bytes is left behind. -/
theorem c8_witness :
    (load_document 0 fs0 (Except.error "boom") [7] "a.txt").1 = false ∧
    (load_document 0 fs0 (Except.error "boom") [7] "a.txt").2.files =
      [{ id := 0, suffix := pathSuffix "a.txt", content := [7] }] :=
  (c8_load_document_tmpfile 0 fs0 [7] "a.txt"
    (fun f hf => absurd hf (List.not_mem_nil f))).2.2 "boom"

/-! Claim C9. -/

/-- C9: after the Load Documents action on any non-empty batch — including
one in which every file fails — the `documents_loaded` flag is `True`, and
with the credential present and the engine handle set the main-area
dispatch renders the chat surface. -/
theorem c9_documents_loaded_unconditional (api_key : String) (rag : Nat)
    (st : SessionState) (fs : FS)
    (batch : List (UploadedFile × Except String Unit))
    (hk : api_key ≠ "") (hr : st.rag_instance = some rag)
    (hb : batch ≠ []) :
    (step (st, fs) (Action.loadDocs batch)).1.documents_loaded = true ∧
    mainView api_key (step (st, fs) (Action.loadDocs batch)).1 =
      MainView.chat := by
  have hbe : batch.isEmpty = false := by
    cases batch with
    | nil => exact absurd rfl hb
    | cons hd tl => rfl
  simp [step, hr, hbe, loadDocumentsHandler, mainView, hk]

/-- C9 witness: the theorem at a concrete one-file batch whose only file
fails ingestion (success count 0): the flag is still set and the chat
surface is enabled. -/
theorem c9_witness :
    (processFiles 0 fs0 batchFail0).2.1 = 0 ∧
    (step ({ rag_instance := some 0, messages := [],
             documents_loaded := false }, fs0)
        (Action.loadDocs batchFail0)).1.documents_loaded = true ∧
    mainView "key"
      (step ({ rag_instance := some 0, messages := [],
               documents_loaded := false }, fs0)
        (Action.loadDocs batchFail0)).1 = MainView.chat := by
  have h := c9_documents_loaded_unconditional "key" 0
    { rag_instance := some 0, messages := [], documents_loaded := false }
    fs0 batchFail0 (by decide) rfl
    (by intro hb; simp [batchFail0] at hb)
  exact ⟨rfl, h.1, h.2⟩

/-! Claim C10. -/

/-- C10: the clear-chat action modifies only the transcript: the engine
handle, the documents-loaded flag and the temp-file area are all exactly
as before, so clearing the chat never forces re-initialization or
re-ingestion. -/
theorem c10_clear_chat_frame :
    ∀ s : SessionState × FS,
      (step s Action.clearChat).1.rag_instance = s.1.rag_instance ∧
      (step s Action.clearChat).1.documents_loaded =
        s.1.documents_loaded ∧
      (step s Action.clearChat).2 = s.2 := by
  intro s
  exact ⟨rfl, rfl, rfl⟩

end LightRAG
